import Mathlib

/-!
Verification of `pygan/generativemodel/nn_model.py` (`NNModel`, a thin adapter
that lets a `NeuralNetwork` act as the generator of a GAN training loop).

The adapter is embedded shallowly:

* Python floats are modelled as rationals (`ℚ`); the claims under scrutiny are
  about the exact arithmetic of the decay schedule, not float rounding.
* numpy arrays are modelled as a shape together with flat data
  (`PyArray`); `reshape((shape[0], -1))` follows numpy's semantics, including
  its failure cases.
* Python exceptions are modelled with `Except PyError`: `% 0` is a
  `ZeroDivisionError`, indexing an empty shape tuple an `IndexError`,
  an impossible reshape a `ValueError`, and an unset attribute an
  `AttributeError`.
* The external `pydbm` network and the `pygan` noise sampler are not part of
  the adapter's own code; they are modelled from the spec as structures whose
  methods log the calls the adapter makes into an event trace, so that
  "exactly one back-propagation followed by exactly one optimize" is a
  provable statement about the trace.
-/

/-- The Python exceptions the adapter (or the numpy calls it makes) can raise. -/
inductive PyError where
  | typeError
  | zeroDivisionError
  | valueError
  | indexError
  | attributeError
deriving DecidableEq, Repr

/-- A numpy array: its shape tuple and its flat data. -/
structure PyArray where
  shape : List Nat
  data : List ℚ
deriving DecidableEq, Repr

/-- The numpy `arr.ndim`. -/
def PyArray.ndim (x : PyArray) : Nat := x.shape.length

/-- The numpy `arr.size`: the product of the dimensions. -/
def PyArray.size (x : PyArray) : Nat := x.shape.prod

/-- The flat data has exactly as many entries as the shape announces. -/
def PyArray.wellFormed (x : PyArray) : Prop := x.data.length = x.shape.prod

instance (x : PyArray) : Decidable x.wellFormed := by
  unfold PyArray.wellFormed
  infer_instance

/-- The numpy call `arr.reshape((arr.shape[0], -1))`, with its failure modes:
`arr.shape[0]` on a 0-dim array is an `IndexError`; numpy cannot infer the
`-1` dimension when the known dimension is `0`, and requires the known
dimension to divide the total size (`ValueError` otherwise). -/
def PyArray.reshape2dNeg1 (x : PyArray) : Except PyError PyArray :=
  match x.shape with
  | [] => .error .indexError
  | s0 :: _ =>
    if s0 = 0 then .error .valueError
    else if s0 ∣ x.size then .ok ⟨[s0, x.size / s0], x.data⟩
    else .error .valueError

/-- Sufficient condition for `reshape2dNeg1` to succeed: a nonempty shape
whose first dimension is nonzero, on a well-formed array. -/
def PyArray.reshapable (x : PyArray) : Prop :=
  x.shape ≠ [] ∧ x.shape.headD 0 ≠ 0

instance (x : PyArray) : Decidable x.reshapable := by
  unfold PyArray.reshapable
  infer_instance

/-- A `pydbm` `NNLayer`; its internals are external to this file. -/
structure NNLayer where
  id : Nat
deriving DecidableEq, Repr

/-- A `pydbm` `ComputableLoss`; the adapter only chooses which one to use. -/
inductive ComputableLoss where
  | meanSquaredError
  | other (id : Nat)
deriving DecidableEq, Repr

/-- Which concrete `OptParams` subclass an optimizer object is. -/
inductive OptKind where
  | adam
  | other (id : Nat)
deriving DecidableEq, Repr

/-- A `pydbm` `OptParams` object: its class together with the attributes the
adapter reads or writes (`weight_limit`, `dropout_rate`, `inferencing_mode`). -/
structure OptParams where
  kind : OptKind
  weight_limit : ℚ
  dropout_rate : ℚ
  inferencing_mode : Bool
deriving DecidableEq, Repr

/-- Modelled from the spec: `pydbm`'s `Adam()` constructor is external to the
file under verification; the adapter only cares that the result is an Adam
optimizer, and immediately overwrites `weight_limit` and `dropout_rate`, so
the numeric stand-ins chosen here are never observable through the adapter. -/
def Adam.fresh : OptParams :=
  { kind := .adam, weight_limit := 0, dropout_rate := 1/2, inferencing_mode := false }

/-- A `pydbm` `VerificatableResult`; the adapter only chooses which one to use. -/
inductive VerificatableResult where
  | verificateFunctionApproximation
  | other (id : Nat)
deriving DecidableEq, Repr

/-- One call the adapter makes into the wrapped network's interface. -/
inductive NNEvent where
  | inferenceCall (x : PyArray)
  | backPropCall (g : PyArray)
  | optimizeCall (lr : ℚ) (epoch : Nat)
deriving DecidableEq, Repr

/-- Modelled from the spec: the external `pydbm` `NeuralNetwork`. It stores the
hyper-parameters it was constructed with, exposes the interface the adapter
expects (`inference`, `back_propagation`, `optimize`, a settable
`opt_params.inferencing_mode`), and — since its numeric behaviour is external —
its forward and backward passes are abstracted as arbitrary functions
`inferF` and `backPropF`, while `trace` logs every call the adapter makes. -/
structure NeuralNetwork where
  nn_layer_list : List NNLayer
  epochs : Nat
  batch_size : Nat
  learning_rate : ℚ
  computable_loss : ComputableLoss
  opt_params : OptParams
  verificatable_result : VerificatableResult
  pre_learned_path_list : Option (List Nat)
  learning_attenuate_rate : ℚ
  attenuate_epoch : Nat
  inferF : PyArray → PyArray
  backPropF : PyArray → PyArray
  trace : List NNEvent

/-- The call `nn.inference(x)`: logged, and the prediction comes from the abstract
forward pass. -/
def NeuralNetwork.inference (nn : NeuralNetwork) (x : PyArray) :
    NeuralNetwork × PyArray :=
  ({ nn with trace := nn.trace ++ [.inferenceCall x] }, nn.inferF x)

/-- The call `nn.back_propagation(g)`: logged, and the delta comes from the abstract
backward pass. -/
def NeuralNetwork.back_propagation (nn : NeuralNetwork) (g : PyArray) :
    NeuralNetwork × PyArray :=
  ({ nn with trace := nn.trace ++ [.backPropCall g] }, nn.backPropF g)

/-- The call `nn.optimize(learning_rate, epoch)`: logged with its two arguments. -/
def NeuralNetwork.optimize (nn : NeuralNetwork) (lr : ℚ) (epoch : Nat) :
    NeuralNetwork :=
  { nn with trace := nn.trace ++ [.optimizeCall lr epoch] }

/-- Modelled from the spec: the external `pydbm` `NeuralNetwork` constructor,
which records the hyper-parameters the adapter passes to it. Its learned
behaviour is external, so the fresh network's forward and backward passes are
fixed stand-in functions and its call trace starts empty. -/
def NeuralNetwork.build (nn_layer_list : List NNLayer) (epochs : Nat)
    (batch_size : Nat) (learning_rate : ℚ) (computable_loss : ComputableLoss)
    (opt_params : OptParams) (verificatable_result : VerificatableResult)
    (pre_learned_path_list : Option (List Nat))
    (learning_attenuate_rate : ℚ) (attenuate_epoch : Nat) : NeuralNetwork :=
  { nn_layer_list, epochs, batch_size, learning_rate, computable_loss,
    opt_params, verificatable_result, pre_learned_path_list,
    learning_attenuate_rate, attenuate_epoch,
    inferF := id, backPropF := id, trace := [] }

/-- Modelled from the spec: a `pygan` noise sampler. `genF k` is the array its
`generate` method returns on its `k`-th call, and `calls` counts the calls
made so far, so that "exactly one call to generate" is provable. -/
structure NoiseSampler where
  genF : Nat → PyArray
  calls : Nat

/-- The call `noise_sampler.generate()`: returns the next sample and counts the call. -/
def NoiseSampler.generate (ns : NoiseSampler) : NoiseSampler × PyArray :=
  ({ ns with calls := ns.calls + 1 }, ns.genF ns.calls)

/-- The `NNModel` adapter's state: the wrapped network and the private fields
set by `__init__` (`__q_shape` is stored but never used by any method). The
`noise_sampler` attribute lives on the `GenerativeModel` superclass and is
unset until assigned, hence the `Option`. -/
structure NNModel where
  nn : NeuralNetwork
  batch_size : Nat
  computable_loss : ComputableLoss
  learning_rate : ℚ
  q_shape : Option (List Nat)
  loss_list : List ℚ
  epoch_counter : Nat
  learning_attenuate_rate : ℚ
  attenuate_epoch : Nat
  noise_sampler : Option NoiseSampler

/-- Source `NNModel.__init__`: default the loss, verification and optimizer objects
when they are `None` (the defaulted Adam gets `weight_limit = 1e+10` and
`dropout_rate = 0.0`), build a `NeuralNetwork` with `epochs=200` only when no
pre-built `nn` is given, then initialise the wrapper fields. -/
def NNModel.init (batch_size : Nat) (nn_layer_list : List NNLayer)
    (learning_rate : ℚ) (learning_attenuate_rate : ℚ) (attenuate_epoch : Nat)
    (computable_loss0 : Option ComputableLoss) (opt_params0 : Option OptParams)
    (verificatable_result0 : Option VerificatableResult)
    (pre_learned_path_list : Option (List Nat))
    (nn0 : Option NeuralNetwork) : NNModel :=
  let computable_loss :=
    match computable_loss0 with
    | none => ComputableLoss.meanSquaredError
    | some c => c
  let verificatable_result :=
    match verificatable_result0 with
    | none => VerificatableResult.verificateFunctionApproximation
    | some v => v
  let opt_params :=
    match opt_params0 with
    | none => { Adam.fresh with weight_limit := 10 ^ 10, dropout_rate := 0 }
    | some p => p
  let nn :=
    match nn0 with
    | none =>
      NeuralNetwork.build nn_layer_list 200 batch_size learning_rate
        computable_loss opt_params verificatable_result pre_learned_path_list
        learning_attenuate_rate attenuate_epoch
    | some nn => nn
  { nn, batch_size, computable_loss, learning_rate,
    q_shape := none, loss_list := [], epoch_counter := 0,
    learning_attenuate_rate, attenuate_epoch, noise_sampler := none }

/-- Python's `%` on naturals: raises `ZeroDivisionError` on a zero modulus. -/
def pymod (a b : Nat) : Except PyError Nat :=
  if b = 0 then .error .zeroDivisionError else .ok (a % b)

/-- Source `NNModel.inference`: reshape the observation to 2-D when its `ndim` is not
2, then delegate to the wrapped network. -/
def NNModel.inference (m : NNModel) (observed_arr : PyArray) :
    Except PyError (NNModel × PyArray) :=
  match (if observed_arr.ndim = 2 then Except.ok observed_arr
         else observed_arr.reshape2dNeg1) with
  | .error e => .error e
  | .ok x =>
    let r := m.nn.inference x
    .ok ({ m with nn := r.1 }, r.2)

/-- Source `NNModel.draw`: one `generate` call on the attached noise sampler, then
`inference` on the sampled array. Accessing the unset attribute is an
`AttributeError`. -/
def NNModel.draw (m : NNModel) : Except PyError (NNModel × PyArray) :=
  match m.noise_sampler with
  | none => .error .attributeError
  | some ns =>
    let g := ns.generate
    NNModel.inference { m with noise_sampler := some g.1 } g.2

/-- Source `NNModel.learn`: decay the stored learning rate when
`(epoch_counter + 1) % attenuate_epoch == 0` (a `ZeroDivisionError` when
`attenuate_epoch` is 0), reshape the gradient to 2-D when needed, run one
back-propagation, one optimize with the stored (post-decay) learning rate and
the pre-increment epoch counter, increment the counter, and return the delta. -/
def NNModel.learn (m : NNModel) (grad_arr : PyArray) :
    Except PyError (NNModel × PyArray) :=
  match pymod (m.epoch_counter + 1) m.attenuate_epoch with
  | .error e => .error e
  | .ok r =>
    let lr := if r = 0 then m.learning_rate * m.learning_attenuate_rate
              else m.learning_rate
    match (if grad_arr.ndim = 2 then Except.ok grad_arr
           else grad_arr.reshape2dNeg1) with
    | .error e => .error e
    | .ok g =>
      let bp := m.nn.back_propagation g
      let nn2 := bp.1.optimize lr m.epoch_counter
      let m2 : NNModel :=
        { m with
          nn := nn2
          learning_rate := lr
          epoch_counter := m.epoch_counter + 1 }
      .ok (m2, bp.2)

/-- Source `NNModel.switch_inferencing_mode`: set the flag on the wrapped network's
optimizer object. -/
def NNModel.switch_inferencing_mode (m : NNModel) (inferencing_mode : Bool) :
    NNModel :=
  { m with nn :=
    { m.nn with opt_params :=
      { m.nn.opt_params with inferencing_mode := inferencing_mode } } }

/-- Source `NNModel.get_nn`: the getter of the `nn` property. -/
def NNModel.get_nn (m : NNModel) : NeuralNetwork := m.nn

/-- Source `NNModel.set_nn`: the setter of the `nn` property unconditionally raises
`TypeError`. -/
def NNModel.set_nn (m : NNModel) (value : NeuralNetwork) :
    Except PyError NNModel :=
  .error .typeError

/-- Modelled from the spec: the `noise_sampler` property setter of the
`GenerativeModel` superclass, which stores the sampler on the object. -/
def NNModel.set_noise_sampler (m : NNModel) (ns : NoiseSampler) : NNModel :=
  { m with noise_sampler := some ns }

/-- Run `learn` on a whole sequence of gradient arrays, keeping the state and
propagating the first exception. -/
def NNModel.learnList (m : NNModel) : List PyArray → Except PyError NNModel
  | [] => .ok m
  | g :: gs =>
    match m.learn g with
    | .error e => .error e
    | .ok r => r.1.learnList gs

/-- The spec's description of `draw`: the composition of `inference` with one
`generate` call on the attached noise sampler, and nothing else. -/
def NNModel.drawSpec (m : NNModel) : Except PyError (NNModel × PyArray) :=
  match m.noise_sampler with
  | none => .error .attributeError
  | some ns =>
    NNModel.inference { m with noise_sampler := some ns.generate.1 }
      ns.generate.2

/-- The adapter states reachable from a fresh construction, indexed by the
number of successful `learn` calls made along the way. `get_nn` and `set_nn`
produce no new state (the setter always raises), so they induce no step. -/
inductive ReachableN : Nat → NNModel → Prop where
  | init : ∀ bs ls lr a N cl op vr pl nn0,
      ReachableN 0 (NNModel.init bs ls lr a N cl op vr pl nn0)
  | drawStep : ∀ n m r, ReachableN n m → m.draw = .ok r → ReachableN n r.1
  | inferenceStep : ∀ n m x r, ReachableN n m → m.inference x = .ok r →
      ReachableN n r.1
  | learnStep : ∀ n m g r, ReachableN n m → m.learn g = .ok r →
      ReachableN (n + 1) r.1
  | switchModeStep : ∀ n m b, ReachableN n m →
      ReachableN n (m.switch_inferencing_mode b)
  | setNoiseSamplerStep : ∀ n m ns, ReachableN n m →
      ReachableN n (m.set_noise_sampler ns)

/-- The adapter states reachable from a fresh construction. -/
def Reachable (m : NNModel) : Prop := ∃ n, ReachableN n m

/-! ### Concrete test fixtures (used by the witness theorems) -/

/-- A 2-dimensional single-entry array. -/
def testArr : PyArray := ⟨[1, 1], [0]⟩

/-- A 3-dimensional array with first dimension 2. -/
def testArr3 : PyArray := ⟨[2, 1, 2], [0, 0, 0, 0]⟩

/-- A concrete pre-built network. -/
def testNN : NeuralNetwork :=
  NeuralNetwork.build [] 200 1 1 .meanSquaredError Adam.fresh
    .verificateFunctionApproximation none 1 1

/-- A concrete noise sampler that always yields `testArr`. -/
def testSampler : NoiseSampler := ⟨fun _ => testArr, 0⟩

/-- A freshly constructed adapter with attenuate epoch 2. -/
def testModel : NNModel := NNModel.init 1 [] 1 (1/2) 2 none none none none none

/-- The fixture `testModel` with `testSampler` attached. -/
def testModelS : NNModel := testModel.set_noise_sampler testSampler

/-! ### Helper lemmas -/

/-- Reshaping never raises `ZeroDivisionError`. -/
theorem reshape2dNeg1_ne_zeroDiv (x : PyArray) :
    x.reshape2dNeg1 ≠ .error .zeroDivisionError := by
  unfold PyArray.reshape2dNeg1
  split
  · simp
  · split
    · simp
    · split <;> simp

/-- On a reshapable array, `reshape2dNeg1` succeeds with a 2-dimensional
result that keeps the first dimension and the data. -/
theorem reshape2dNeg1_ok (x : PyArray) (hx : x.reshapable) :
    ∃ y, x.reshape2dNeg1 = .ok y ∧ y.ndim = 2
      ∧ y.shape.head? = x.shape.head? ∧ y.data = x.data := by
  obtain ⟨hne, h0⟩ := hx
  unfold PyArray.reshape2dNeg1
  match hs : x.shape with
  | [] => exact absurd hs hne
  | s0 :: rest =>
    have hs0 : s0 ≠ 0 := by
      simpa [hs] using h0
    have hdvd : s0 ∣ x.size := by
      unfold PyArray.size
      rw [hs]
      exact ⟨rest.prod, List.prod_cons⟩
    refine ⟨⟨[s0, x.size / s0], x.data⟩, ?_, rfl, by simp, rfl⟩
    dsimp only
    rw [if_neg hs0, if_pos hdvd]

/-- Successful `learn` on a gradient that is already 2-dimensional: the exact
result state. -/
theorem learn_ok_2d (m : NNModel) (g : PyArray)
    (hN : m.attenuate_epoch ≠ 0) (hg : g.ndim = 2) :
    m.learn g = .ok
      ({ m with
          nn := (m.nn.back_propagation g).1.optimize
            (if (m.epoch_counter + 1) % m.attenuate_epoch = 0 then
              m.learning_rate * m.learning_attenuate_rate else m.learning_rate)
            m.epoch_counter
          learning_rate := if (m.epoch_counter + 1) % m.attenuate_epoch = 0 then
              m.learning_rate * m.learning_attenuate_rate else m.learning_rate
          epoch_counter := m.epoch_counter + 1 },
        m.nn.backPropF g) := by
  simp [NNModel.learn, pymod, hN, hg, NeuralNetwork.back_propagation]

/-- Successful `learn` on a gradient that gets reshaped first: the exact
result state. -/
theorem learn_ok_reshaped (m : NNModel) (g g2 : PyArray)
    (hN : m.attenuate_epoch ≠ 0) (hg : g.ndim ≠ 2)
    (hre : g.reshape2dNeg1 = .ok g2) :
    m.learn g = .ok
      ({ m with
          nn := (m.nn.back_propagation g2).1.optimize
            (if (m.epoch_counter + 1) % m.attenuate_epoch = 0 then
              m.learning_rate * m.learning_attenuate_rate else m.learning_rate)
            m.epoch_counter
          learning_rate := if (m.epoch_counter + 1) % m.attenuate_epoch = 0 then
              m.learning_rate * m.learning_attenuate_rate else m.learning_rate
          epoch_counter := m.epoch_counter + 1 },
        m.nn.backPropF g2) := by
  simp [NNModel.learn, pymod, hN, hg, hre, NeuralNetwork.back_propagation]

/-! ### C1 -/

/-- C1: assigning to the `nn` property (`set_nn`) always raises `TypeError`,
producing no updated wrapper state (so every field is left unchanged). -/
theorem set_nn_always_raises_type_error (m : NNModel) (v : NeuralNetwork) :
    m.set_nn v = .error .typeError := rfl

/-! ### C7 -/

/-- C7: `switch_inferencing_mode b` sets the wrapped network's
`opt_params.inferencing_mode` to `b` and changes nothing else: the network
is otherwise identical (same hyper-parameters, behaviour and trace, same
optimizer object up to the flag) and the wrapper's learning rate, epoch
counter and loss-history list are unchanged. -/
theorem switch_inferencing_mode_only_sets_flag (m : NNModel) (b : Bool) :
    (m.switch_inferencing_mode b).nn.opt_params.inferencing_mode = b
    ∧ (m.switch_inferencing_mode b).nn =
        { m.nn with opt_params :=
          { m.nn.opt_params with inferencing_mode := b } }
    ∧ (m.switch_inferencing_mode b).nn.opt_params.kind = m.nn.opt_params.kind
    ∧ (m.switch_inferencing_mode b).nn.opt_params.weight_limit =
        m.nn.opt_params.weight_limit
    ∧ (m.switch_inferencing_mode b).nn.opt_params.dropout_rate =
        m.nn.opt_params.dropout_rate
    ∧ (m.switch_inferencing_mode b).nn.trace = m.nn.trace
    ∧ (m.switch_inferencing_mode b).learning_rate = m.learning_rate
    ∧ (m.switch_inferencing_mode b).epoch_counter = m.epoch_counter
    ∧ (m.switch_inferencing_mode b).loss_list = m.loss_list
    ∧ (m.switch_inferencing_mode b).noise_sampler = m.noise_sampler :=
  ⟨rfl, rfl, rfl, rfl, rfl, rfl, rfl, rfl, rfl, rfl⟩

/-! ### C10 -/

/-- C10: a `learn` call raises `ZeroDivisionError` exactly when
`attenuate_epoch` is 0 (the unguarded `(epoch_counter + 1) % attenuate_epoch`);
with `attenuate_epoch ≥ 1` that error branch is unreachable and the decay
check is total. -/
theorem learn_zero_division_iff (m : NNModel) (g : PyArray) :
    m.learn g = .error .zeroDivisionError ↔ m.attenuate_epoch = 0 := by
  constructor
  · intro h
    by_contra hN
    simp only [NNModel.learn, pymod, hN, if_false, if_neg] at h
    split at h
    · rename_i e heq
      split at heq
      · exact absurd heq (by simp)
      · injection h with h
        subst h
        exact reshape2dNeg1_ne_zeroDiv g heq
    · exact absurd h (by simp)
  · intro h
    simp [NNModel.learn, pymod, h]

/-- Running `learn` over a list of 2-dimensional gradients succeeds and
multiplies the stored learning rate by the attenuation factor once for every
multiple of `attenuate_epoch` crossed by the epoch counter. -/
theorem learnList_ok (gs : List PyArray) (m : NNModel)
    (hN : m.attenuate_epoch ≠ 0) (hgs : ∀ g ∈ gs, g.ndim = 2) :
    ∃ m2, m.learnList gs = .ok m2
      ∧ m2.learning_rate = m.learning_rate * m.learning_attenuate_rate ^
          ((m.epoch_counter + gs.length) / m.attenuate_epoch
            - m.epoch_counter / m.attenuate_epoch)
      ∧ m2.epoch_counter = m.epoch_counter + gs.length
      ∧ m2.attenuate_epoch = m.attenuate_epoch
      ∧ m2.learning_attenuate_rate = m.learning_attenuate_rate := by
  induction gs generalizing m with
  | nil =>
    exact ⟨m, rfl, by simp, by simp, rfl, rfl⟩
  | cons g gs ih =>
    have hg : g.ndim = 2 := hgs g (List.mem_cons_self g gs)
    have hstep := learn_ok_2d m g hN hg
    have hgs2 : ∀ g2 ∈ gs, g2.ndim = 2 := fun g2 hmem => hgs g2 (List.mem_cons_of_mem g hmem)
    set m1 : NNModel :=
      { m with
          nn := (m.nn.back_propagation g).1.optimize
            (if (m.epoch_counter + 1) % m.attenuate_epoch = 0 then
              m.learning_rate * m.learning_attenuate_rate else m.learning_rate)
            m.epoch_counter
          learning_rate := if (m.epoch_counter + 1) % m.attenuate_epoch = 0 then
              m.learning_rate * m.learning_attenuate_rate else m.learning_rate
          epoch_counter := m.epoch_counter + 1 } with hm1
    obtain ⟨m2, hrun, hlr, hep, hat, hla⟩ := ih m1 hN hgs2
    refine ⟨m2, ?_, ?_, ?_, hat, hla⟩
    · unfold NNModel.learnList
      rw [hstep]
      exact hrun
    · rw [hlr]
      have hc : m1.epoch_counter = m.epoch_counter + 1 := rfl
      have hr : m1.learning_attenuate_rate = m.learning_attenuate_rate := rfl
      have ha : m1.attenuate_epoch = m.attenuate_epoch := rfl
      rw [hc, hr, ha]
      by_cases hdvd : m.attenuate_epoch ∣ m.epoch_counter + 1
      · have hmod : (m.epoch_counter + 1) % m.attenuate_epoch = 0 :=
          Nat.dvd_iff_mod_eq_zero.mp hdvd
        have hl1 : m1.learning_rate = m.learning_rate * m.learning_attenuate_rate := by
          rw [hm1]
          exact if_pos hmod
        rw [hl1]
        have hsucc : (m.epoch_counter + 1) / m.attenuate_epoch =
            m.epoch_counter / m.attenuate_epoch + 1 := Nat.succ_div_of_dvd hdvd
        have hmono : (m.epoch_counter + 1) / m.attenuate_epoch ≤
            (m.epoch_counter + 1 + gs.length) / m.attenuate_epoch :=
          Nat.div_le_div_right (by omega)
        have hexp : (m.epoch_counter + 1 + gs.length) / m.attenuate_epoch
              - m.epoch_counter / m.attenuate_epoch
            = ((m.epoch_counter + 1 + gs.length) / m.attenuate_epoch
              - (m.epoch_counter + 1) / m.attenuate_epoch) + 1 := by
          omega
        have harith : m.epoch_counter + (gs.length + 1) = m.epoch_counter + 1 + gs.length := by
          omega
        rw [List.length_cons, harith, hexp, pow_succ]
        ring
      · have hmod : (m.epoch_counter + 1) % m.attenuate_epoch ≠ 0 := by
          intro hz
          exact hdvd (Nat.dvd_iff_mod_eq_zero.mpr hz)
        have hl1 : m1.learning_rate = m.learning_rate := by
          rw [hm1]
          exact if_neg hmod
        rw [hl1]
        have hsucc : (m.epoch_counter + 1) / m.attenuate_epoch =
            m.epoch_counter / m.attenuate_epoch := Nat.succ_div_of_not_dvd hdvd
        have harith : m.epoch_counter + (gs.length + 1) = m.epoch_counter + 1 + gs.length := by
          omega
        rw [List.length_cons, harith, hsucc]
    · rw [hep]
      have hc : m1.epoch_counter = m.epoch_counter + 1 := rfl
      rw [hc, List.length_cons]
      omega

/-! ### C2 -/

/-- C2: for a freshly constructed adapter with initial learning rate `r0`,
attenuation factor `a` and attenuate epoch `N ≥ 1`, running `learn` over any
sequence of `n` (2-dimensional) gradients succeeds and leaves the stored
learning rate at `r0 * a ^ (n / N)`: the rate decays exactly once every `N`
calls. -/
theorem learn_decays_learning_rate (batch_size : Nat) (layers : List NNLayer)
    (r0 a : ℚ) (N : Nat) (cl : Option ComputableLoss) (op : Option OptParams)
    (vr : Option VerificatableResult) (pl : Option (List Nat))
    (nn0 : Option NeuralNetwork) (hN : 1 ≤ N)
    (gs : List PyArray) (hgs : ∀ g ∈ gs, g.ndim = 2) :
    ∃ m2, (NNModel.init batch_size layers r0 a N cl op vr pl nn0).learnList gs
        = .ok m2
      ∧ m2.learning_rate = r0 * a ^ (gs.length / N) := by
  have hN0 : (NNModel.init batch_size layers r0 a N cl op vr pl nn0).attenuate_epoch ≠ 0 := by
    show N ≠ 0
    omega
  obtain ⟨m2, hrun, hlr, hep, hat, hla⟩ :=
    learnList_ok gs (NNModel.init batch_size layers r0 a N cl op vr pl nn0) hN0 hgs
  refine ⟨m2, hrun, ?_⟩
  have h1 : (NNModel.init batch_size layers r0 a N cl op vr pl nn0).learning_rate = r0 := rfl
  have h2 : (NNModel.init batch_size layers r0 a N cl op vr pl nn0).learning_attenuate_rate = a := rfl
  have h3 : (NNModel.init batch_size layers r0 a N cl op vr pl nn0).epoch_counter = 0 := rfl
  have h4 : (NNModel.init batch_size layers r0 a N cl op vr pl nn0).attenuate_epoch = N := rfl
  rw [h1, h2, h3, h4] at hlr
  simpa using hlr

/-- Witness for C2: three `learn` calls with attenuate epoch 2 end with
learning rate `1 * (1/2) ^ (3 / 2)`. -/
theorem learn_decays_learning_rate_witness :
    ∃ m2, (NNModel.init 1 [] 1 (1/2) 2 none none none none none).learnList
        [testArr, testArr, testArr] = .ok m2
      ∧ m2.learning_rate = 1 * (1/2) ^ ([testArr, testArr, testArr].length / 2) :=
  learn_decays_learning_rate 1 [] 1 (1/2) 2 none none none none none
    (by decide) [testArr, testArr, testArr] (by decide)

/-! ### C3 -/

/-- Successful `inference` on an observation that is already 2-dimensional:
the exact result state. -/
theorem inference_ok_2d (m : NNModel) (x : PyArray) (hx : x.ndim = 2) :
    m.inference x = .ok
      ({ m with nn :=
        { m.nn with trace := m.nn.trace ++ [.inferenceCall x] } },
       m.nn.inferF x) := by
  simp [NNModel.inference, hx, NeuralNetwork.inference]

/-- Successful `inference` on an observation that gets reshaped first: the
exact result state. -/
theorem inference_ok_reshaped (m : NNModel) (x x2 : PyArray)
    (hx : x.ndim ≠ 2) (hre : x.reshape2dNeg1 = .ok x2) :
    m.inference x = .ok
      ({ m with nn :=
        { m.nn with trace := m.nn.trace ++ [.inferenceCall x2] } },
       m.nn.inferF x2) := by
  simp [NNModel.inference, hx, hre, NeuralNetwork.inference]

/-- C3: a successful `learn g` call runs exactly one back-propagation on the
wrapped network (on `g`, reshaped to 2-D when needed) followed by exactly one
optimize call, where optimize receives the stored post-decay learning rate and
the pre-increment epoch counter, and `learn` returns the delta produced by the
back-propagation. -/
theorem learn_single_backprop_then_optimize (m : NNModel) (g : PyArray)
    (hN : m.attenuate_epoch ≠ 0) (hg : g.ndim = 2 ∨ g.reshapable) :
    ∃ m2 g2,
      m.learn g = .ok (m2, m.nn.backPropF g2)
      ∧ (if g.ndim = 2 then g2 = g else g.reshape2dNeg1 = .ok g2)
      ∧ m2.nn.trace = m.nn.trace
          ++ [.backPropCall g2, .optimizeCall m2.learning_rate m.epoch_counter]
      ∧ m2.learning_rate = (if (m.epoch_counter + 1) % m.attenuate_epoch = 0
          then m.learning_rate * m.learning_attenuate_rate else m.learning_rate)
      ∧ m2.epoch_counter = m.epoch_counter + 1 := by
  by_cases hg2 : g.ndim = 2
  · refine ⟨_, g, learn_ok_2d m g hN hg2, ?_, ?_, rfl, rfl⟩
    · rw [if_pos hg2]
    · simp [NeuralNetwork.back_propagation, NeuralNetwork.optimize]
  · obtain ⟨g2, hre, _, _, _⟩ := reshape2dNeg1_ok g (hg.resolve_left hg2)
    refine ⟨_, g2, learn_ok_reshaped m g g2 hN hg2 hre, ?_, ?_, rfl, rfl⟩
    · rw [if_neg hg2]
      exact hre
    · simp [NeuralNetwork.back_propagation, NeuralNetwork.optimize]

/-- Witness for C3 at a concrete adapter and 2-dimensional gradient. -/
theorem learn_single_backprop_then_optimize_witness :
    ∃ m2 g2,
      testModel.learn testArr = .ok (m2, testModel.nn.backPropF g2)
      ∧ (if testArr.ndim = 2 then g2 = testArr
          else testArr.reshape2dNeg1 = .ok g2)
      ∧ m2.nn.trace = testModel.nn.trace
          ++ [.backPropCall g2,
              .optimizeCall m2.learning_rate testModel.epoch_counter]
      ∧ m2.learning_rate =
          (if (testModel.epoch_counter + 1) % testModel.attenuate_epoch = 0
            then testModel.learning_rate * testModel.learning_attenuate_rate
            else testModel.learning_rate)
      ∧ m2.epoch_counter = testModel.epoch_counter + 1 :=
  learn_single_backprop_then_optimize testModel testArr (by decide)
    (Or.inl (by decide))

/-! ### C4 -/

/-- C4: `inference x` forwards `x` to the wrapped network unmodified when `x`
is 2-dimensional, and otherwise forwards the 2-D reshape of `x`; in both cases
the array handed to the underlying network has the same first dimension
(batch size) as the input. -/
theorem inference_preserves_batch_size (m : NNModel) (x : PyArray)
    (hx : x.ndim = 2 ∨ x.reshapable) :
    ∃ m2 x2,
      m.inference x = .ok (m2, m.nn.inferF x2)
      ∧ m2.nn.trace = m.nn.trace ++ [.inferenceCall x2]
      ∧ x2.ndim = 2
      ∧ x2.shape.head? = x.shape.head?
      ∧ (x.ndim = 2 → x2 = x) := by
  by_cases hx2 : x.ndim = 2
  · exact ⟨_, x, inference_ok_2d m x hx2, rfl, hx2, rfl, fun _ => rfl⟩
  · obtain ⟨x2, hre, hnd, hhead, _⟩ := reshape2dNeg1_ok x (hx.resolve_left hx2)
    exact ⟨_, x2, inference_ok_reshaped m x x2 hx2 hre, rfl, hnd, hhead,
      fun h => absurd h hx2⟩

/-- Witness for C4 at a concrete adapter and 3-dimensional observation. -/
theorem inference_preserves_batch_size_witness :
    ∃ m2 x2,
      testModel.inference testArr3 = .ok (m2, testModel.nn.inferF x2)
      ∧ m2.nn.trace = testModel.nn.trace ++ [.inferenceCall x2]
      ∧ x2.ndim = 2
      ∧ x2.shape.head? = testArr3.shape.head?
      ∧ (testArr3.ndim = 2 → x2 = testArr3) :=
  inference_preserves_batch_size testModel testArr3 (Or.inr (by decide))

/-! ### C5 -/

/-- C5: with a noise sampler attached, `draw` is exactly the composition of
`inference` with one `generate` call on the sampler — no other transformation
— and the sampler's call counter advances by exactly one. -/
theorem draw_refines_generate_inference (m : NNModel) (ns : NoiseSampler)
    (h : m.noise_sampler = some ns) :
    m.draw = m.drawSpec
    ∧ m.drawSpec =
        ({ m with noise_sampler := some ns.generate.1 }).inference
          ns.generate.2
    ∧ ns.generate.1.calls = ns.calls + 1 := by
  refine ⟨rfl, ?_, rfl⟩
  unfold NNModel.drawSpec
  rw [h]

/-- Witness for C5 at a concrete adapter with an attached sampler. -/
theorem draw_refines_generate_inference_witness :
    testModelS.draw = testModelS.drawSpec
    ∧ testModelS.drawSpec =
        ({ testModelS with
            noise_sampler := some testSampler.generate.1 }).inference
          testSampler.generate.2
    ∧ testSampler.generate.1.calls = testSampler.calls + 1 :=
  draw_refines_generate_inference testModelS testSampler rfl

/-! ### C6 -/

/-- C6: the constructor wraps a given `nn` as-is; with `nn = None` it builds a
network from the given layer list, batch size, learning rate and attenuation
parameters, with `epochs` fixed at 200 and the loss, optimizer and
verification objects defaulted to `MeanSquaredError`, `Adam` (with
`weight_limit = 1e+10`, `dropout_rate = 0.0`) and
`VerificateFunctionApproximation` exactly when the corresponding argument is
`None`. -/
theorem init_wraps_or_builds (bs : Nat) (ls : List NNLayer) (lr a : ℚ)
    (N : Nat) (cl : Option ComputableLoss) (op : Option OptParams)
    (vr : Option VerificatableResult) (pl : Option (List Nat))
    (nn0 : Option NeuralNetwork) :
    (∀ nn, nn0 = some nn → (NNModel.init bs ls lr a N cl op vr pl nn0).nn = nn)
    ∧ (nn0 = none →
        (NNModel.init bs ls lr a N cl op vr pl nn0).nn.epochs = 200
        ∧ (NNModel.init bs ls lr a N cl op vr pl nn0).nn.nn_layer_list = ls
        ∧ (NNModel.init bs ls lr a N cl op vr pl nn0).nn.batch_size = bs
        ∧ (NNModel.init bs ls lr a N cl op vr pl nn0).nn.learning_rate = lr
        ∧ (NNModel.init bs ls lr a N cl op vr pl nn0).nn.learning_attenuate_rate = a
        ∧ (NNModel.init bs ls lr a N cl op vr pl nn0).nn.attenuate_epoch = N
        ∧ (NNModel.init bs ls lr a N cl op vr pl nn0).nn.pre_learned_path_list = pl
        ∧ (cl = none → (NNModel.init bs ls lr a N cl op vr pl nn0).nn.computable_loss
            = ComputableLoss.meanSquaredError)
        ∧ (∀ c, cl = some c →
            (NNModel.init bs ls lr a N cl op vr pl nn0).nn.computable_loss = c)
        ∧ (vr = none → (NNModel.init bs ls lr a N cl op vr pl nn0).nn.verificatable_result
            = VerificatableResult.verificateFunctionApproximation)
        ∧ (∀ v, vr = some v →
            (NNModel.init bs ls lr a N cl op vr pl nn0).nn.verificatable_result = v)
        ∧ (op = none →
            (NNModel.init bs ls lr a N cl op vr pl nn0).nn.opt_params.kind = OptKind.adam
            ∧ (NNModel.init bs ls lr a N cl op vr pl nn0).nn.opt_params.weight_limit = 10 ^ 10
            ∧ (NNModel.init bs ls lr a N cl op vr pl nn0).nn.opt_params.dropout_rate = 0)
        ∧ (∀ p, op = some p →
            (NNModel.init bs ls lr a N cl op vr pl nn0).nn.opt_params = p)) := by
  constructor
  · rintro nn rfl
    rfl
  · rintro rfl
    refine ⟨rfl, rfl, rfl, rfl, rfl, rfl, rfl, ?_, ?_, ?_, ?_, ?_, ?_⟩
    · rintro rfl
      rfl
    · rintro c rfl
      rfl
    · rintro rfl
      rfl
    · rintro v rfl
      rfl
    · rintro rfl
      exact ⟨rfl, rfl, rfl⟩
    · rintro p rfl
      rfl

/-- Witness for C6: a pre-built network is wrapped exactly as given. -/
theorem init_wraps_or_builds_witness :
    (NNModel.init 1 [] 1 1 1 none none none none (some testNN)).nn = testNN :=
  (init_wraps_or_builds 1 [] 1 1 1 none none none none (some testNN)).1
    testNN rfl

/-! ### State preservation of each operation (used for C8 and C9) -/

/-- A successful `learn` keeps the loss list and increments the epoch
counter by exactly one. -/
theorem learn_ok_state (m : NNModel) (g : PyArray) (r : NNModel × PyArray)
    (h : m.learn g = .ok r) :
    r.1.loss_list = m.loss_list ∧ r.1.epoch_counter = m.epoch_counter + 1 := by
  by_cases hz : m.attenuate_epoch = 0
  · simp [NNModel.learn, pymod, hz] at h
  · by_cases hg : g.ndim = 2
    · rw [learn_ok_2d m g hz hg] at h
      injection h with h
      subst h
      exact ⟨rfl, rfl⟩
    · rcases hre : g.reshape2dNeg1 with e | g2
      · simp [NNModel.learn, pymod, hz, hg, hre] at h
      · rw [learn_ok_reshaped m g g2 hz hg hre] at h
        injection h with h
        subst h
        exact ⟨rfl, rfl⟩

/-- A successful `inference` keeps the loss list and the epoch counter. -/
theorem inference_ok_state (m : NNModel) (x : PyArray) (r : NNModel × PyArray)
    (h : m.inference x = .ok r) :
    r.1.loss_list = m.loss_list ∧ r.1.epoch_counter = m.epoch_counter := by
  by_cases hx : x.ndim = 2
  · rw [inference_ok_2d m x hx] at h
    injection h with h
    subst h
    exact ⟨rfl, rfl⟩
  · rcases hre : x.reshape2dNeg1 with e | x2
    · simp [NNModel.inference, hx, hre] at h
    · rw [inference_ok_reshaped m x x2 hx hre] at h
      injection h with h
      subst h
      exact ⟨rfl, rfl⟩

/-- A successful `draw` keeps the loss list and the epoch counter. -/
theorem draw_ok_state (m : NNModel) (r : NNModel × PyArray)
    (h : m.draw = .ok r) :
    r.1.loss_list = m.loss_list ∧ r.1.epoch_counter = m.epoch_counter := by
  unfold NNModel.draw at h
  rcases hns : m.noise_sampler with _ | ns
  · rw [hns] at h
    simp at h
  · rw [hns] at h
    have h2 := inference_ok_state
      { m with noise_sampler := some ns.generate.1 } ns.generate.2 r h
    exact ⟨h2.1, h2.2⟩

/-! ### C8 -/

/-- C8: the loss-history list is empty at construction and no operation ever
touches it, so it is empty in every reachable adapter state. -/
theorem loss_list_always_empty (m : NNModel) (h : Reachable m) :
    m.loss_list = [] := by
  obtain ⟨n, h⟩ := h
  induction h with
  | init bs ls lr a N cl op vr pl nn0 => rfl
  | drawStep n m r hr hstep ih =>
    rw [(draw_ok_state m r hstep).1]
    exact ih
  | inferenceStep n m x r hr hstep ih =>
    rw [(inference_ok_state m x r hstep).1]
    exact ih
  | learnStep n m g r hr hstep ih =>
    rw [(learn_ok_state m g r hstep).1]
    exact ih
  | switchModeStep n m b hr ih => exact ih
  | setNoiseSamplerStep n m ns hr ih => exact ih

/-- Witness for C8 at a freshly constructed adapter. -/
theorem loss_list_always_empty_witness :
    (NNModel.init 1 [] 1 (1/2) 2 none none none none none).loss_list = [] :=
  loss_list_always_empty _
    ⟨0, ReachableN.init 1 [] 1 (1/2) 2 none none none none none⟩

/-! ### C9 -/

/-- C9: the epoch counter starts at 0, each successful `learn` increments it
by exactly one, and no other operation changes it: in every state reached
after `n` successful `learn` calls the counter equals `n`. -/
theorem epoch_counter_counts_learn_calls (n : Nat) (m : NNModel)
    (h : ReachableN n m) : m.epoch_counter = n := by
  induction h with
  | init bs ls lr a N cl op vr pl nn0 => rfl
  | drawStep n m r hr hstep ih =>
    rw [(draw_ok_state m r hstep).2]
    exact ih
  | inferenceStep n m x r hr hstep ih =>
    rw [(inference_ok_state m x r hstep).2]
    exact ih
  | learnStep n m g r hr hstep ih =>
    rw [(learn_ok_state m g r hstep).2, ih]
  | switchModeStep n m b hr ih => exact ih
  | setNoiseSamplerStep n m ns hr ih => exact ih

/-- Witness for C9 at a freshly constructed adapter: zero `learn` calls,
counter 0. -/
theorem epoch_counter_counts_learn_calls_witness :
    (NNModel.init 2 [] 1 (1/2) 3 none none none none none).epoch_counter = 0 :=
  epoch_counter_counts_learn_calls 0 _
    (ReachableN.init 2 [] 1 (1/2) 3 none none none none none)
